import Mathlib

/-!
The `svcat provision` command: validation and dispatch.

A shallow embedding of `cmd/svcat/instance/provision_cmd.go`.

* `provisonCmd` is the command struct (the embedded `*command.Context` is
  carried separately, as `Externals`).
* `Validate`, `Run` and `Provision` are the three methods.  They are written
  as state-passing functions: each returns the Go return value, the command
  struct after the call (where the method assigns to it) and the list of
  calls it made to code outside the file, in the order they were made.
* The functions of package `parameters`, `App.Provision` and
  `output.WriteInstanceDetails` are not part of the file; they are taken as
  parameters (`Externals`) and every call to them is recorded as a `Call`.
-/

namespace Svcat

/-- The two results of a Go function of signature `(T, error)`.  Both are
always present; `err = none` is the `nil` error. -/
structure GoResult (T E : Type) where
  val : T
  err : Option E

/-- The code outside `provision_cmd.go` that the command calls.  `P` is what
the `params interface{}` field holds, `S` is `map[string]string`, `I` is the
instance returned by the provisioning call and `E` is the type of the error
values these functions return; `Error` is the `Error()` method that the `%s`
verb of `fmt.Errorf` calls. -/
structure Externals (P S I E : Type) where
  ParseVariableJSON : String → GoResult P E
  ParseVariableAssignments : List String → GoResult P E
  ParseKeyMaps : List String → GoResult S E
  Provision : String → String → String → String → P → S → GoResult I E
  Error : E → String

/-- The fields of `type provisonCmd struct` (lines 28-39). -/
structure provisonCmd (P S : Type) where
  ns : String
  instanceName : String
  className : String
  planName : String
  rawParams : List String
  jsonParams : String
  params : P
  rawSecrets : List String
  secrets : S

/-- One call made by the command to code outside the file, with the arguments
it was given. -/
inductive Call (P S I : Type) where
  | ParseVariableJSON (jsonParams : String)
  | ParseVariableAssignments (rawParams : List String)
  | ParseKeyMaps (rawSecrets : List String)
  | Provision (ns instanceName className planName : String) (params : P) (secrets : S)
  | WriteInstanceDetails (inst : I)

/-- Whether a call is a call of `App.Provision`. -/
def Call.isProvision {P S I : Type} : Call P S I → Bool
  | .Provision _ _ _ _ _ _ => true
  | _ => false

/-- Whether a call is a call of one of the three functions of package
`parameters`. -/
def Call.isParse {P S I : Type} : Call P S I → Bool
  | .ParseVariableJSON _ => true
  | .ParseVariableAssignments _ => true
  | .ParseKeyMaps _ => true
  | _ => false

/-- What `Validate` leaves behind: the returned error (`none` is `nil`; an
error built by `fmt.Errorf` is given by its text), the command struct after
the call and the calls made. -/
structure ValidateResult (P S I : Type) where
  err : Option String
  cmd : provisonCmd P S
  calls : List (Call P S I)

/-- What `Provision` and `Run` leave behind: the returned error and the calls
made.  Neither method assigns to the command struct. -/
structure RunResult (P S I E : Type) where
  err : Option E
  calls : List (Call P S I)

/-- Lines 111-116 of `Validate`: the secrets are parsed, assigned and the
error, if any, is wrapped.  `done` holds the calls made so far. -/
def validateSecrets {P S I E : Type} (x : Externals P S I E) (c : provisonCmd P S)
    (done : List (Call P S I)) : ValidateResult P S I :=
  let r := x.ParseKeyMaps c.rawSecrets
  let c := { c with secrets := r.val }
  let done := done ++ [Call.ParseKeyMaps c.rawSecrets]
  match r.err with
  | some err => ⟨some ("invalid --secret value (" ++ x.Error err ++ ")"), c, done⟩
  | none => ⟨none, c, done⟩

/-- The method `func (c *provisonCmd) Validate(args []string) error`
(lines 87-117). -/
def Validate {P S I E : Type} (x : Externals P S I E) (c : provisonCmd P S)
    (args : List String) : ValidateResult P S I :=
  match args with
  | [] => ⟨some "an instance name is required", c, []⟩
  | arg0 :: _ =>
    let c := { c with instanceName := arg0 }
    if c.jsonParams ≠ "" ∧ c.rawParams.length > 0 then
      ⟨some "--params-json cannot be used with --param", c, []⟩
    else if c.jsonParams ≠ "" then
      let r := x.ParseVariableJSON c.jsonParams
      let c := { c with params := r.val }
      match r.err with
      | some err =>
        ⟨some ("invalid --params value (" ++ x.Error err ++ ")"), c,
          [Call.ParseVariableJSON c.jsonParams]⟩
      | none => validateSecrets x c [Call.ParseVariableJSON c.jsonParams]
    else
      let r := x.ParseVariableAssignments c.rawParams
      let c := { c with params := r.val }
      match r.err with
      | some err =>
        ⟨some ("invalid --param value (" ++ x.Error err ++ ")"), c,
          [Call.ParseVariableAssignments c.rawParams]⟩
      | none => validateSecrets x c [Call.ParseVariableAssignments c.rawParams]

/-- The method `func (c *provisonCmd) Provision() error` (lines 123-132). -/
def Provision {P S I E : Type} (x : Externals P S I E) (c : provisonCmd P S) :
    RunResult P S I E :=
  let r := x.Provision c.ns c.instanceName c.className c.planName c.params c.secrets
  let call := Call.Provision c.ns c.instanceName c.className c.planName c.params c.secrets
  match r.err with
  | some err => ⟨some err, [call]⟩
  | none => ⟨none, [call, Call.WriteInstanceDetails r.val]⟩

/-- The method `func (c *provisonCmd) Run() error` (lines 119-121). -/
def Run {P S I E : Type} (x : Externals P S I E) (c : provisonCmd P S) :
    RunResult P S I E :=
  Provision x c

/-! ## Stand-ins for the code outside the file

The theorems below hold for every `Externals`.  To evaluate the command on
concrete command lines a concrete `Externals` is needed; the two list parsers
are modelled from the specification, the JSON parser and the provisioning call
are small stand-ins. -/

/-- What the stand-in parsers store in `params`: Go's `nil`, the flat mapping
of `--param` entries in the order given, or a JSON scalar. -/
inductive Payload where
  | null
  | flat (pairs : List (String × String))
  | scalar (text : String)
  deriving DecidableEq, Repr

/-- The instance the stand-in provisioning call returns. -/
structure Instance where
  ns : String
  name : String
  className : String
  planName : String
  params : Payload
  secrets : List (String × String)
  deriving DecidableEq, Repr

/-- Splits the characters of an entry at the first occurrence of `sep`:
`none` when `sep` does not occur. -/
def splitFirst (sep : Char) (cs : List Char) : Option (List Char × List Char) :=
  match cs.span (fun ch => ch ≠ sep) with
  | (_, []) => none
  | (before, _ :: after) => some (before, after)

/-- Modelled from the spec: the loop of `parameters.ParseVariableAssignments`,
which is not among the sources.  Each entry is split on the first `=`; an
entry without `=` is a format error naming the entry; a name already seen is
an error; the pairs are kept in the order supplied. -/
def parseAssignments : List String → List (String × String) → GoResult Payload String
  | [], seen => ⟨Payload.flat seen, none⟩
  | p :: rest, seen =>
    match splitFirst '=' p.data with
    | none => ⟨Payload.null, some ("invalid parameter (" ++ p ++ "), must be in NAME=VALUE format")⟩
    | some (name, value) =>
      if seen.any (fun kv => kv.1 = String.mk name) then
        ⟨Payload.null, some ("duplicate parameter (" ++ String.mk name ++ ")")⟩
      else parseAssignments rest (seen ++ [(String.mk name, String.mk value)])

/-- Modelled from the spec: one entry of `parameters.ParseKeyMaps`, which is
not among the sources.  The secret name is the text before the first `[`, the
key the text up to the `]`, nothing may follow the `]`, and neither part may
be empty. -/
def parseKeyMap (s : String) : Option (String × String) :=
  match splitFirst '[' s.data with
  | none => none
  | some (secret, rest) =>
    match splitFirst ']' rest with
    | some (key, []) =>
      if secret ≠ [] ∧ key ≠ [] then some (String.mk secret, String.mk key) else none
    | _ => none

/-- Modelled from the spec: the loop of `parameters.ParseKeyMaps`.  An entry
that is not of the form `SECRET[KEY]` is a format error naming the entry; a
secret name given twice keeps the later key. -/
def parseKeyMaps : List String → List (String × String) →
    GoResult (List (String × String)) String
  | [], seen => ⟨seen, none⟩
  | s :: rest, seen =>
    match parseKeyMap s with
    | none => ⟨[], some ("invalid secret (" ++ s ++ "), must be in SECRET[KEY] format")⟩
    | some (secret, key) =>
      parseKeyMaps rest (seen.filter (fun kv => kv.1 ≠ secret) ++ [(secret, key)])

/-- A stand-in for `parameters.ParseVariableJSON`: it knows the three JSON
literals and reports every other text as a syntax error. -/
def parseLiteralJSON (s : String) : GoResult Payload String :=
  if s = "null" ∨ s = "true" ∨ s = "false" then ⟨Payload.scalar s, none⟩
  else ⟨Payload.null, some ("cannot parse " ++ s ++ " as JSON")⟩

/-- A stand-in for `App.Provision`: a cluster that already holds an instance
named `taken` and creates any other one. -/
def provisionStandIn (ns instanceName className planName : String) (params : Payload)
    (secrets : List (String × String)) : GoResult Instance String :=
  if instanceName = "taken" then
    ⟨⟨"", "", "", "", Payload.null, []⟩, some "instance taken already exists"⟩
  else ⟨⟨ns, instanceName, className, planName, params, secrets⟩, none⟩

/-- The stand-ins as one `Externals`; the error values are their texts. -/
def standIns : Externals Payload (List (String × String)) Instance String where
  ParseVariableJSON := parseLiteralJSON
  ParseVariableAssignments := fun ps => parseAssignments ps []
  ParseKeyMaps := fun ss => parseKeyMaps ss []
  Provision := provisionStandIn
  Error := fun e => e

/-- The command struct after flag parsing of
`--class mysqldb --plan free -p location=eastus -p sslEnforcement=disabled`
(scenario 1 of the specification); `--namespace` has its default. -/
def scenario1 : provisonCmd Payload (List (String × String)) where
  ns := "default"
  instanceName := ""
  className := "mysqldb"
  planName := "free"
  rawParams := ["location=eastus", "sslEnforcement=disabled"]
  jsonParams := ""
  params := Payload.null
  rawSecrets := []
  secrets := []

/-- The command of scenario 1 with `--params-json true` given as well, after an
earlier assignment of the instance name `old`. -/
def bothFlags : provisonCmd Payload (List (String × String)) :=
  { scenario1 with instanceName := "old", jsonParams := "true" }

/-- The command of scenario 1 with `-s badformat` given as well. -/
def badSecret : provisonCmd Payload (List (String × String)) :=
  { scenario1 with rawSecrets := ["badformat"] }

/-- The command struct after flag parsing of
`--class mysqldb --plan free --params-json [1,` (a JSON array cut short). -/
def badJSON : provisonCmd Payload (List (String × String)) :=
  { scenario1 with rawParams := [], jsonParams := "[1," }

/-- The command of scenario 1 after `Validate` has stored the instance name
`taken`. -/
def takenName : provisonCmd Payload (List (String × String)) :=
  { scenario1 with instanceName := "taken" }

/-- The command struct after flag parsing of
`--class mysqldb --plan free -p location -s badformat`: a parameter entry
without `=` and a malformed secret entry. -/
def badParam : provisonCmd Payload (List (String × String)) :=
  { scenario1 with rawParams := ["location"], rawSecrets := ["badformat"] }

/-! ## How `Validate` computes, branch by branch -/

theorem Validate_nil {P S I E : Type} (x : Externals P S I E) (c : provisonCmd P S) :
    Validate x c [] = ⟨some "an instance name is required", c, []⟩ := rfl

theorem Validate_exclusive {P S I E : Type} (x : Externals P S I E) (c : provisonCmd P S)
    (a : String) (rest : List String) (hj : c.jsonParams ≠ "") (hp : c.rawParams ≠ []) :
    Validate x c (a :: rest) =
      ⟨some "--params-json cannot be used with --param", { c with instanceName := a }, []⟩ := by
  have hlen : 0 < c.rawParams.length := List.length_pos.mpr hp
  simp [Validate, hj, hlen]

theorem Validate_json_err {P S I E : Type} (x : Externals P S I E) (c : provisonCmd P S)
    (a : String) (rest : List String) (e : E) (hj : c.jsonParams ≠ "") (hp : c.rawParams = [])
    (he : (x.ParseVariableJSON c.jsonParams).err = some e) :
    Validate x c (a :: rest) =
      ⟨some ("invalid --params value (" ++ x.Error e ++ ")"),
        { c with instanceName := a, params := (x.ParseVariableJSON c.jsonParams).val },
        [Call.ParseVariableJSON c.jsonParams]⟩ := by
  simp [Validate, hj, hp, he]

theorem Validate_json_ok {P S I E : Type} (x : Externals P S I E) (c : provisonCmd P S)
    (a : String) (rest : List String) (hj : c.jsonParams ≠ "") (hp : c.rawParams = [])
    (he : (x.ParseVariableJSON c.jsonParams).err = none) :
    Validate x c (a :: rest) =
      validateSecrets x
        { c with instanceName := a, params := (x.ParseVariableJSON c.jsonParams).val }
        [Call.ParseVariableJSON c.jsonParams] := by
  simp [Validate, hj, hp, he]

theorem Validate_assign_err {P S I E : Type} (x : Externals P S I E) (c : provisonCmd P S)
    (a : String) (rest : List String) (e : E) (hj : c.jsonParams = "")
    (he : (x.ParseVariableAssignments c.rawParams).err = some e) :
    Validate x c (a :: rest) =
      ⟨some ("invalid --param value (" ++ x.Error e ++ ")"),
        { c with instanceName := a, params := (x.ParseVariableAssignments c.rawParams).val },
        [Call.ParseVariableAssignments c.rawParams]⟩ := by
  simp [Validate, hj, he]

theorem Validate_assign_ok {P S I E : Type} (x : Externals P S I E) (c : provisonCmd P S)
    (a : String) (rest : List String) (hj : c.jsonParams = "")
    (he : (x.ParseVariableAssignments c.rawParams).err = none) :
    Validate x c (a :: rest) =
      validateSecrets x
        { c with instanceName := a, params := (x.ParseVariableAssignments c.rawParams).val }
        [Call.ParseVariableAssignments c.rawParams] := by
  simp [Validate, hj, he]

theorem validateSecrets_err {P S I E : Type} (x : Externals P S I E) (c : provisonCmd P S)
    (done : List (Call P S I)) :
    (validateSecrets x c done).err =
      (x.ParseKeyMaps c.rawSecrets).err.map
        (fun e => "invalid --secret value (" ++ x.Error e ++ ")") := by
  cases h : (x.ParseKeyMaps c.rawSecrets).err <;> simp [validateSecrets, h]

theorem validateSecrets_cmd {P S I E : Type} (x : Externals P S I E) (c : provisonCmd P S)
    (done : List (Call P S I)) :
    (validateSecrets x c done).cmd = { c with secrets := (x.ParseKeyMaps c.rawSecrets).val } := by
  cases h : (x.ParseKeyMaps c.rawSecrets).err <;> simp [validateSecrets, h]

theorem validateSecrets_calls {P S I E : Type} (x : Externals P S I E) (c : provisonCmd P S)
    (done : List (Call P S I)) :
    (validateSecrets x c done).calls = done ++ [Call.ParseKeyMaps c.rawSecrets] := by
  cases h : (x.ParseKeyMaps c.rawSecrets).err <;> simp [validateSecrets, h]

/-! ## The claims -/

/-- C1: `Validate` returns no error exactly when `args` is non-empty,
`jsonParams` and `rawParams` are not both non-empty, the selected parameter
parser succeeds (the JSON parser on `jsonParams` when that is non-empty, the
assignment parser on `rawParams` otherwise) and the secret parser succeeds on
`rawSecrets`; and then `instanceName` is `args[0]`, `params` is the selected
parser's result and `secrets` is the secret parser's result.  The parsers are
arbitrary. -/
theorem Validate_succeeds_iff {P S I E : Type} (x : Externals P S I E) (c : provisonCmd P S)
    (args : List String) :
    ((Validate x c args : ValidateResult P S I).err = none ↔
      args ≠ [] ∧ ¬ (c.jsonParams ≠ "" ∧ c.rawParams ≠ []) ∧
      (if c.jsonParams ≠ "" then x.ParseVariableJSON c.jsonParams
        else x.ParseVariableAssignments c.rawParams).err = none ∧
      (x.ParseKeyMaps c.rawSecrets).err = none) ∧
    ((Validate x c args : ValidateResult P S I).err = none →
      args.head? = some (Validate x c args : ValidateResult P S I).cmd.instanceName ∧
      (Validate x c args : ValidateResult P S I).cmd.params =
        (if c.jsonParams ≠ "" then x.ParseVariableJSON c.jsonParams
          else x.ParseVariableAssignments c.rawParams).val ∧
      (Validate x c args : ValidateResult P S I).cmd.secrets =
        (x.ParseKeyMaps c.rawSecrets).val) := by
  cases args with
  | nil => simp [Validate_nil]
  | cons a rest =>
    by_cases hj : c.jsonParams = ""
    · cases hp : (x.ParseVariableAssignments c.rawParams).err with
      | some e => simp [Validate_assign_err x c a rest e hj hp, hj, hp]
      | none =>
        rw [Validate_assign_ok x c a rest hj hp]
        simp [validateSecrets_err, validateSecrets_cmd, hj, hp]
    · by_cases hr : c.rawParams = []
      · cases hp : (x.ParseVariableJSON c.jsonParams).err with
        | some e => simp [Validate_json_err x c a rest e hj hr hp, hj, hp]
        | none =>
          rw [Validate_json_ok x c a rest hj hr hp]
          simp [validateSecrets_err, validateSecrets_cmd, hj, hr, hp]
      · simp [Validate_exclusive x c a rest hj hr, hj, hr]

/-- C1 at scenario 1 of the specification: the command line is accepted and
the resolved fields are the parsed ones. -/
theorem Validate_succeeds_iff_witness :
    (Validate standIns scenario1 ["myinst"] : ValidateResult _ _ Instance).err = none ∧
    (Validate standIns scenario1 ["myinst"] : ValidateResult _ _ Instance).cmd.instanceName
      = "myinst" ∧
    (Validate standIns scenario1 ["myinst"] : ValidateResult _ _ Instance).cmd.params
      = Payload.flat [("location", "eastus"), ("sslEnforcement", "disabled")] ∧
    (Validate standIns scenario1 ["myinst"] : ValidateResult _ _ Instance).cmd.secrets = [] := by
  have h := Validate_succeeds_iff standIns scenario1 ["myinst"]
  have hok : (Validate standIns scenario1 ["myinst"] : ValidateResult _ _ Instance).err = none :=
    h.1.2 ⟨by decide, by decide, by decide, by decide⟩
  obtain ⟨h1, h2, h3⟩ := h.2 hok
  refine ⟨hok, ?_, ?_, ?_⟩
  · have : some "myinst" = some (Validate standIns scenario1 ["myinst"] :
        ValidateResult _ _ Instance).cmd.instanceName := h1
    exact (Option.some.inj this).symm
  · rw [h2]; decide
  · rw [h3]; decide

/-- C2: when `jsonParams` and `rawParams` are both non-empty and an instance
name is supplied, `Validate` fails with the mutual-exclusion error whatever the
two flags hold, no parser is called (the call list is empty and the outcome is
the same for every choice of the external functions), and `params` and
`secrets` are left as they were. -/
theorem Validate_mutually_exclusive {P S I E : Type} (x : Externals P S I E)
    (c : provisonCmd P S) (args : List String)
    (hargs : args ≠ []) (hj : c.jsonParams ≠ "") (hp : c.rawParams ≠ []) :
    (Validate x c args).err = some "--params-json cannot be used with --param" ∧
    (Validate x c args).calls = [] ∧
    (Validate x c args).cmd.params = c.params ∧
    (Validate x c args).cmd.secrets = c.secrets ∧
    ∀ y : Externals P S I E, Validate y c args = Validate x c args := by
  cases args with
  | nil => exact absurd rfl hargs
  | cons a rest =>
    refine ⟨?_, ?_, ?_, ?_, ?_⟩
    · rw [Validate_exclusive x c a rest hj hp]
    · rw [Validate_exclusive x c a rest hj hp]
    · rw [Validate_exclusive x c a rest hj hp]
    · rw [Validate_exclusive x c a rest hj hp]
    · intro y
      rw [Validate_exclusive x c a rest hj hp, Validate_exclusive y c a rest hj hp]

/-- C2 at scenario 2 of the specification: `--params-json` together with
`-p location=eastus -p sslEnforcement=disabled`. -/
theorem Validate_mutually_exclusive_witness :
    (Validate standIns bothFlags ["myinst"]).err
      = some "--params-json cannot be used with --param" ∧
    (Validate standIns bothFlags ["myinst"]).calls = [] ∧
    (Validate standIns bothFlags ["myinst"]).cmd.params = bothFlags.params ∧
    (Validate standIns bothFlags ["myinst"]).cmd.secrets = bothFlags.secrets ∧
    ∀ y : Externals Payload (List (String × String)) Instance String,
      Validate y bothFlags ["myinst"] = Validate standIns bothFlags ["myinst"] :=
  Validate_mutually_exclusive standIns bothFlags ["myinst"] (by decide) (by decide) (by decide)

/-- C3: with zero positional arguments `Validate` returns the error
`an instance name is required` whatever the command holds, makes no call at
all (no parser, no provisioning call) and leaves the command as it was. -/
theorem Validate_no_args {P S I E : Type} (x : Externals P S I E) (c : provisonCmd P S) :
    (Validate x c []).err = some "an instance name is required" ∧
    (Validate x c []).calls = [] ∧
    (Validate x c []).cmd = c :=
  ⟨rfl, rfl, rfl⟩

/-- C4, as the code has it: `Validate` requires at least one positional
argument.  With none it fails; with one or more the first becomes the instance
name and the others are not looked at, so the outcome is that of the first
argument alone. -/
theorem Validate_first_arg_only {P S I E : Type} (x : Externals P S I E)
    (c : provisonCmd P S) :
    (Validate x c []).err = some "an instance name is required" ∧
    ∀ (a : String) (rest : List String),
      Validate x c (a :: rest) = Validate x c [a] ∧
      (Validate x c (a :: rest)).cmd.instanceName = a := by
  refine ⟨rfl, fun a rest => ⟨rfl, ?_⟩⟩
  by_cases hj : c.jsonParams = ""
  · cases hp : (x.ParseVariableAssignments c.rawParams).err with
    | some e => rw [Validate_assign_err x c a rest e hj hp]
    | none => rw [Validate_assign_ok x c a rest hj hp, validateSecrets_cmd]
  · by_cases hr : c.rawParams = []
    · cases hp : (x.ParseVariableJSON c.jsonParams).err with
      | some e => rw [Validate_json_err x c a rest e hj hr hp]
      | none => rw [Validate_json_ok x c a rest hj hr hp, validateSecrets_cmd]
    · rw [Validate_exclusive x c a rest hj hr]

/-- C4 as stated fails: two positional arguments are accepted, the second is
ignored. -/
theorem Validate_accepts_two_args :
    ["myinst", "extra"].length ≠ 1 ∧
    (Validate standIns scenario1 ["myinst", "extra"] : ValidateResult _ _ Instance).err = none ∧
    (Validate standIns scenario1 ["myinst", "extra"] : ValidateResult _ _ Instance).cmd.instanceName
      = "myinst" := by
  decide

/-- C5: `Provision`, and `Run` which is `Provision`, calls the provisioning
collaborator first and exactly once, with `ns`, `instanceName`, `className`,
`planName`, `params` and `secrets` of the command in that order; when the
collaborator returns no error the returned instance is handed to the renderer,
once, and `Provision` returns no error. -/
theorem Provision_calls_collaborator_once {P S I E : Type} (x : Externals P S I E)
    (c : provisonCmd P S) :
    Run x c = Provision x c ∧
    (Provision x c).calls.head? =
      some (Call.Provision c.ns c.instanceName c.className c.planName c.params c.secrets) ∧
    (Provision x c).calls.countP Call.isProvision = 1 ∧
    ((x.Provision c.ns c.instanceName c.className c.planName c.params c.secrets).err = none →
      (Provision x c).err = none ∧
      (Provision x c).calls =
        [Call.Provision c.ns c.instanceName c.className c.planName c.params c.secrets,
          Call.WriteInstanceDetails
            (x.Provision c.ns c.instanceName c.className c.planName c.params c.secrets).val]) := by
  refine ⟨rfl, ?_⟩
  cases h : (x.Provision c.ns c.instanceName c.className c.planName c.params c.secrets).err <;>
    simp [Provision, h, Call.isProvision]

/-- C5 at scenario 1, after validation: one provisioning call, then the
instance it returned is rendered. -/
theorem Provision_calls_collaborator_once_witness :
    (Provision standIns (Validate standIns scenario1 ["myinst"] :
        ValidateResult _ _ Instance).cmd).err = none ∧
    (Provision standIns (Validate standIns scenario1 ["myinst"] :
        ValidateResult _ _ Instance).cmd).calls =
      [Call.Provision "default" "myinst" "mysqldb" "free"
          (Payload.flat [("location", "eastus"), ("sslEnforcement", "disabled")]) [],
        Call.WriteInstanceDetails ⟨"default", "myinst", "mysqldb", "free",
          Payload.flat [("location", "eastus"), ("sslEnforcement", "disabled")], []⟩] :=
  (Provision_calls_collaborator_once standIns
    (Validate standIns scenario1 ["myinst"] : ValidateResult _ _ Instance).cmd).2.2.2
    (by decide)

/-- C6: when the provisioning collaborator returns the error `e`, `Provision`
and `Run` return `e` itself, the collaborator has been called once and not
again, and the renderer is not called. -/
theorem Provision_error_unchanged {P S I E : Type} (x : Externals P S I E)
    (c : provisonCmd P S) (e : E)
    (he : (x.Provision c.ns c.instanceName c.className c.planName c.params c.secrets).err
      = some e) :
    (Provision x c).err = some e ∧
    (Run x c).err = some e ∧
    (Provision x c).calls =
      [Call.Provision c.ns c.instanceName c.className c.planName c.params c.secrets] ∧
    (Run x c).calls =
      [Call.Provision c.ns c.instanceName c.className c.planName c.params c.secrets] := by
  simp [Run, Provision, he]

/-- C6 at an instance name the stand-in cluster already holds. -/
theorem Provision_error_unchanged_witness :
    (Provision standIns takenName).err = some "instance taken already exists" ∧
    (Run standIns takenName).err = some "instance taken already exists" ∧
    (Provision standIns takenName).calls =
      [Call.Provision "default" "taken" "mysqldb" "free" Payload.null []] ∧
    (Run standIns takenName).calls =
      [Call.Provision "default" "taken" "mysqldb" "free" Payload.null []] :=
  Provision_error_unchanged standIns takenName "instance taken already exists" (by decide)

/-- C7, as the code has it: `Validate` does not undo on failure what it has
already assigned.  When it returns an error, either there was no positional
argument and the command is as before, or `instanceName` is `args[0]`, the
flag fields are as before, and: with both parameter flags set `params` and
`secrets` are as before; when the selected parameter parser fails `secrets` is
as before; when only the secret parser fails `params` is the selected parser's
result. -/
theorem Validate_failure_state {P S I E : Type} (x : Externals P S I E) (c : provisonCmd P S)
    (args : List String) (h : (Validate x c args).err ≠ none) :
    (args = [] ∧ (Validate x c args).cmd = c) ∨
    (∃ a rest, args = a :: rest ∧
      (Validate x c args).cmd.instanceName = a ∧
      (Validate x c args).cmd.ns = c.ns ∧
      (Validate x c args).cmd.className = c.className ∧
      (Validate x c args).cmd.planName = c.planName ∧
      (Validate x c args).cmd.rawParams = c.rawParams ∧
      (Validate x c args).cmd.jsonParams = c.jsonParams ∧
      (Validate x c args).cmd.rawSecrets = c.rawSecrets ∧
      (((c.jsonParams ≠ "" ∧ c.rawParams ≠ []) ∧
          (Validate x c args).cmd.params = c.params ∧
          (Validate x c args).cmd.secrets = c.secrets) ∨
        (¬ (c.jsonParams ≠ "" ∧ c.rawParams ≠ []) ∧
          (if c.jsonParams ≠ "" then x.ParseVariableJSON c.jsonParams
            else x.ParseVariableAssignments c.rawParams).err ≠ none ∧
          (Validate x c args).cmd.secrets = c.secrets) ∨
        (¬ (c.jsonParams ≠ "" ∧ c.rawParams ≠ []) ∧
          (if c.jsonParams ≠ "" then x.ParseVariableJSON c.jsonParams
            else x.ParseVariableAssignments c.rawParams).err = none ∧
          (x.ParseKeyMaps c.rawSecrets).err ≠ none ∧
          (Validate x c args).cmd.params =
            (if c.jsonParams ≠ "" then x.ParseVariableJSON c.jsonParams
              else x.ParseVariableAssignments c.rawParams).val))) := by
  cases args with
  | nil => exact Or.inl ⟨rfl, rfl⟩
  | cons a rest =>
    refine Or.inr ⟨a, rest, rfl, ?_⟩
    by_cases hj : c.jsonParams = ""
    · cases hp : (x.ParseVariableAssignments c.rawParams).err with
      | some e => simp [Validate_assign_err x c a rest e hj hp, hj, hp]
      | none =>
        rw [Validate_assign_ok x c a rest hj hp] at h ⊢
        simp only [validateSecrets_err] at h
        simp [validateSecrets_cmd, hj, hp]
        intro hs
        exact h (by simp [hs])
    · by_cases hr : c.rawParams = []
      · cases hp : (x.ParseVariableJSON c.jsonParams).err with
        | some e => simp [Validate_json_err x c a rest e hj hr hp, hj, hr, hp]
        | none =>
          rw [Validate_json_ok x c a rest hj hr hp] at h ⊢
          simp only [validateSecrets_err] at h
          simp [validateSecrets_cmd, hj, hr, hp]
          intro hs
          exact h (by simp [hs])
      · simp [Validate_exclusive x c a rest hj hr, hj, hr]

/-- C7 amended, at `-s badformat`: the failure leaves the instance name and
the parsed parameters assigned. -/
theorem Validate_failure_state_witness :
    (Validate standIns badSecret ["myinst"] : ValidateResult _ _ Instance).err ≠ none ∧
    ((["myinst"] = ([] : List String) ∧
        (Validate standIns badSecret ["myinst"] : ValidateResult _ _ Instance).cmd = badSecret) ∨
      (∃ a rest, ["myinst"] = a :: rest ∧
        (Validate standIns badSecret ["myinst"] : ValidateResult _ _ Instance).cmd.instanceName
          = a ∧
        (Validate standIns badSecret ["myinst"] : ValidateResult _ _ Instance).cmd.ns
          = badSecret.ns ∧
        (Validate standIns badSecret ["myinst"] : ValidateResult _ _ Instance).cmd.className
          = badSecret.className ∧
        (Validate standIns badSecret ["myinst"] : ValidateResult _ _ Instance).cmd.planName
          = badSecret.planName ∧
        (Validate standIns badSecret ["myinst"] : ValidateResult _ _ Instance).cmd.rawParams
          = badSecret.rawParams ∧
        (Validate standIns badSecret ["myinst"] : ValidateResult _ _ Instance).cmd.jsonParams
          = badSecret.jsonParams ∧
        (Validate standIns badSecret ["myinst"] : ValidateResult _ _ Instance).cmd.rawSecrets
          = badSecret.rawSecrets ∧
        (((badSecret.jsonParams ≠ "" ∧ badSecret.rawParams ≠ []) ∧
            (Validate standIns badSecret ["myinst"] : ValidateResult _ _ Instance).cmd.params
              = badSecret.params ∧
            (Validate standIns badSecret ["myinst"] : ValidateResult _ _ Instance).cmd.secrets
              = badSecret.secrets) ∨
          (¬ (badSecret.jsonParams ≠ "" ∧ badSecret.rawParams ≠ []) ∧
            (if badSecret.jsonParams ≠ "" then standIns.ParseVariableJSON badSecret.jsonParams
              else standIns.ParseVariableAssignments badSecret.rawParams).err ≠ none ∧
            (Validate standIns badSecret ["myinst"] : ValidateResult _ _ Instance).cmd.secrets
              = badSecret.secrets) ∨
          (¬ (badSecret.jsonParams ≠ "" ∧ badSecret.rawParams ≠ []) ∧
            (if badSecret.jsonParams ≠ "" then standIns.ParseVariableJSON badSecret.jsonParams
              else standIns.ParseVariableAssignments badSecret.rawParams).err = none ∧
            (standIns.ParseKeyMaps badSecret.rawSecrets).err ≠ none ∧
            (Validate standIns badSecret ["myinst"] : ValidateResult _ _ Instance).cmd.params =
              (if badSecret.jsonParams ≠ "" then standIns.ParseVariableJSON badSecret.jsonParams
                else standIns.ParseVariableAssignments badSecret.rawParams).val)))) :=
  ⟨by decide, Validate_failure_state standIns badSecret ["myinst"] (by decide)⟩

/-- C7 as stated fails.  With both parameter flags set `Validate` returns an
error and `instanceName` has changed from `old` to `myinst`; with a malformed
secret entry after well-formed parameters `Validate` returns an error and
`params` has changed from `nil` to the parsed mapping. -/
theorem Validate_failure_changes_fields :
    ((Validate standIns bothFlags ["myinst"] : ValidateResult _ _ Instance).err ≠ none ∧
      bothFlags.instanceName = "old" ∧
      (Validate standIns bothFlags ["myinst"] : ValidateResult _ _ Instance).cmd.instanceName
        = "myinst") ∧
    ((Validate standIns badSecret ["myinst"] : ValidateResult _ _ Instance).err ≠ none ∧
      badSecret.params = Payload.null ∧
      (Validate standIns badSecret ["myinst"] : ValidateResult _ _ Instance).cmd.params
        = Payload.flat [("location", "eastus"), ("sslEnforcement", "disabled")]) := by
  decide

/-- C8 fails for the JSON parser: on the malformed value `[1,` of
`--params-json` the returned text is `invalid --params value (...)`, in which
the flag name `--params-json` does not occur, while the texts for the other
two parsers carry `--param` and `--secret`. -/
theorem Validate_json_error_text :
    (Validate standIns badJSON ["myinst"] : ValidateResult _ _ Instance).err
      = some "invalid --params value (cannot parse [1, as JSON)" ∧
    ¬ ("--params-json".data <:+: "invalid --params value (cannot parse [1, as JSON)".data) ∧
    (Validate standIns badParam ["myinst"] : ValidateResult _ _ Instance).err
      = some "invalid --param value (invalid parameter (location), must be in NAME=VALUE format)" ∧
    (Validate standIns badSecret ["myinst"] : ValidateResult _ _ Instance).err
      = some "invalid --secret value (invalid secret (badformat), must be in SECRET[KEY] format)" := by
  decide

/-- C9: when `Validate` succeeds it leaves `ns`, `className`, `planName`,
`rawParams`, `jsonParams` and `rawSecrets` as they were, and `Run` on the
validated command calls the collaborator first and exactly once, with the
namespace, `args[0]`, the class, the plan, the selected parser's result (the
assignment parser's result on `rawParams` when `jsonParams` is empty) and the
secret parser's result on `rawSecrets`. -/
theorem Validate_then_Run {P S I E : Type} (x : Externals P S I E) (c : provisonCmd P S)
    (args : List String) (h : (Validate x c args : ValidateResult P S I).err = none) :
    (Validate x c args : ValidateResult P S I).cmd.ns = c.ns ∧
    (Validate x c args : ValidateResult P S I).cmd.className = c.className ∧
    (Validate x c args : ValidateResult P S I).cmd.planName = c.planName ∧
    (Validate x c args : ValidateResult P S I).cmd.rawParams = c.rawParams ∧
    (Validate x c args : ValidateResult P S I).cmd.jsonParams = c.jsonParams ∧
    (Validate x c args : ValidateResult P S I).cmd.rawSecrets = c.rawSecrets ∧
    ∃ a rest, args = a :: rest ∧
      (Run x (Validate x c args : ValidateResult P S I).cmd).calls.head? =
        some (Call.Provision c.ns a c.className c.planName
          (if c.jsonParams ≠ "" then x.ParseVariableJSON c.jsonParams
            else x.ParseVariableAssignments c.rawParams).val
          (x.ParseKeyMaps c.rawSecrets).val) ∧
      (Run x (Validate x c args : ValidateResult P S I).cmd).calls.countP Call.isProvision = 1 := by
  have hrun : ∀ d : provisonCmd P S,
      (Run x d).calls.head? =
        some (Call.Provision d.ns d.instanceName d.className d.planName d.params d.secrets) ∧
      (Run x d).calls.countP Call.isProvision = 1 := by
    intro d
    cases hd : (x.Provision d.ns d.instanceName d.className d.planName d.params d.secrets).err <;>
      simp [Run, Provision, hd, Call.isProvision]
  cases args with
  | nil => simp [Validate_nil] at h
  | cons a rest =>
    by_cases hj : c.jsonParams = ""
    · cases hp : (x.ParseVariableAssignments c.rawParams).err with
      | some e => simp [Validate_assign_err x c a rest e hj hp] at h
      | none =>
        rw [Validate_assign_ok x c a rest hj hp, validateSecrets_cmd]
        refine ⟨rfl, rfl, rfl, rfl, rfl, rfl, a, rest, rfl, ?_, (hrun _).2⟩
        rw [(hrun _).1]
        simp [hj]
    · by_cases hr : c.rawParams = []
      · cases hp : (x.ParseVariableJSON c.jsonParams).err with
        | some e => simp [Validate_json_err x c a rest e hj hr hp] at h
        | none =>
          rw [Validate_json_ok x c a rest hj hr hp, validateSecrets_cmd]
          refine ⟨rfl, rfl, rfl, rfl, rfl, rfl, a, rest, rfl, ?_, (hrun _).2⟩
          rw [(hrun _).1]
          simp [hj]
      · simp [Validate_exclusive x c a rest hj hr] at h

/-- C9 at scenario 1 of the specification: args `myinst`, class `mysqldb`,
plan `free`, parameters `location=eastus` and `sslEnforcement=disabled`, no
secrets.  `Run` makes the one provisioning call with those fields and renders
the instance. -/
theorem Validate_then_Run_witness :
    (Validate standIns scenario1 ["myinst"] : ValidateResult _ _ Instance).err = none ∧
    (Run standIns (Validate standIns scenario1 ["myinst"] : ValidateResult _ _ Instance).cmd).calls =
      [Call.Provision "default" "myinst" "mysqldb" "free"
          (Payload.flat [("location", "eastus"), ("sslEnforcement", "disabled")]) [],
        Call.WriteInstanceDetails ⟨"default", "myinst", "mysqldb", "free",
          Payload.flat [("location", "eastus"), ("sslEnforcement", "disabled")], []⟩] ∧
    ((Validate standIns scenario1 ["myinst"] : ValidateResult _ _ Instance).cmd.ns = scenario1.ns ∧
    (Validate standIns scenario1 ["myinst"] : ValidateResult _ _ Instance).cmd.className
      = scenario1.className ∧
    (Validate standIns scenario1 ["myinst"] : ValidateResult _ _ Instance).cmd.planName
      = scenario1.planName ∧
    (Validate standIns scenario1 ["myinst"] : ValidateResult _ _ Instance).cmd.rawParams
      = scenario1.rawParams ∧
    (Validate standIns scenario1 ["myinst"] : ValidateResult _ _ Instance).cmd.jsonParams
      = scenario1.jsonParams ∧
    (Validate standIns scenario1 ["myinst"] : ValidateResult _ _ Instance).cmd.rawSecrets
      = scenario1.rawSecrets ∧
    ∃ a rest, ["myinst"] = a :: rest ∧
      (Run standIns
          (Validate standIns scenario1 ["myinst"] : ValidateResult _ _ Instance).cmd).calls.head? =
        some (Call.Provision scenario1.ns a scenario1.className scenario1.planName
          (if scenario1.jsonParams ≠ "" then standIns.ParseVariableJSON scenario1.jsonParams
            else standIns.ParseVariableAssignments scenario1.rawParams).val
          (standIns.ParseKeyMaps scenario1.rawSecrets).val) ∧
      (Run standIns
          (Validate standIns scenario1 ["myinst"] :
            ValidateResult _ _ Instance).cmd).calls.countP Call.isProvision = 1) :=
  ⟨by decide, rfl, Validate_then_Run standIns scenario1 ["myinst"] (by decide)⟩

/-- C10: with a positional argument and not both parameter flags set, when the
selected parameter parser fails with `e`, `Validate` returns the wrapped text
(`invalid --params value (e)` for the JSON parser, `invalid --param value (e)`
for the assignment parser), the only call made is that of the parameter
parser, and neither `rawSecrets` nor the secret parser has any influence on
the outcome. -/
theorem Validate_param_error_short_circuits {P S I E : Type} (x : Externals P S I E)
    (c : provisonCmd P S) (a : String) (rest : List String) (e : E)
    (hnot : ¬ (c.jsonParams ≠ "" ∧ c.rawParams ≠ []))
    (he : (if c.jsonParams ≠ "" then x.ParseVariableJSON c.jsonParams
      else x.ParseVariableAssignments c.rawParams).err = some e) :
    (Validate x c (a :: rest)).err =
      some (if c.jsonParams ≠ "" then "invalid --params value (" ++ x.Error e ++ ")"
        else "invalid --param value (" ++ x.Error e ++ ")") ∧
    (Validate x c (a :: rest)).calls =
      [if c.jsonParams ≠ "" then Call.ParseVariableJSON c.jsonParams
        else Call.ParseVariableAssignments c.rawParams] ∧
    (Validate x c (a :: rest)).calls.countP Call.isParse = 1 ∧
    (∀ rs : List String,
      (Validate x { c with rawSecrets := rs } (a :: rest)).err = (Validate x c (a :: rest)).err ∧
      (Validate x { c with rawSecrets := rs } (a :: rest)).calls
        = (Validate x c (a :: rest)).calls ∧
      (Validate x { c with rawSecrets := rs } (a :: rest)).cmd
        = { (Validate x c (a :: rest)).cmd with rawSecrets := rs }) ∧
    (∀ pk : List String → GoResult S E,
      Validate { x with ParseKeyMaps := pk } c (a :: rest) = Validate x c (a :: rest)) := by
  by_cases hj : c.jsonParams = ""
  · simp only [hj, ne_eq, not_true_eq_false, if_false] at he
    have h1 := Validate_assign_err x c a rest e hj he
    refine ⟨by simp [h1, hj], by simp [h1, hj], by simp [h1, Call.isParse], ?_, ?_⟩
    · intro rs
      have h2 := Validate_assign_err x { c with rawSecrets := rs } a rest e hj he
      rw [h1, h2]
      exact ⟨rfl, rfl, rfl⟩
    · intro pk
      have h2 := Validate_assign_err { x with ParseKeyMaps := pk } c a rest e hj he
      rw [h1, h2]
  · have hr : c.rawParams = [] := by
      by_contra hr
      exact hnot ⟨hj, hr⟩
    simp only [hj, ne_eq, not_false_eq_true, if_true] at he
    have h1 := Validate_json_err x c a rest e hj hr he
    refine ⟨by simp [h1, hj], by simp [h1, hj], by simp [h1, Call.isParse], ?_, ?_⟩
    · intro rs
      have h2 := Validate_json_err x { c with rawSecrets := rs } a rest e hj hr he
      rw [h1, h2]
      exact ⟨rfl, rfl, rfl⟩
    · intro pk
      have h2 := Validate_json_err { x with ParseKeyMaps := pk } c a rest e hj hr he
      rw [h1, h2]

/-- C10 at `-p location -s badformat`: the parameter error is returned, the
secret parser is not called, and the malformed secret entry changes nothing. -/
theorem Validate_param_error_short_circuits_witness :
    (Validate standIns badParam ["myinst"]).err =
      some "invalid --param value (invalid parameter (location), must be in NAME=VALUE format)" ∧
    (Validate standIns badParam ["myinst"] : ValidateResult _ _ Instance).calls =
      [Call.ParseVariableAssignments ["location"]] ∧
    (Validate standIns { badParam with rawSecrets := [] } ["myinst"] :
        ValidateResult _ _ Instance).err
      = (Validate standIns badParam ["myinst"] : ValidateResult _ _ Instance).err := by
  have h := Validate_param_error_short_circuits standIns badParam "myinst" []
    "invalid parameter (location), must be in NAME=VALUE format" (by decide) (by decide)
  exact ⟨h.1, h.2.1, (h.2.2.2.1 []).1⟩

end Svcat
